import Mathlib

/-!
Shallow embedding of the FIFO-Bounded-Buffer repository.

The repository implements a bounded, blocking FIFO queue guarded by one
mutex and two condition variables (`src/queue.rs`), a C-ABI handle wrapper
around the same design (`src/lib.rs`, with its non-null `enqueue`, `dequeue`
and `queue_shutdown` bodies still `todo!()`), and a CLI demo driver
(`src/main.rs`).

The embedding gives the queue sequential (quiescent-interleaving) semantics:
each operation is a function on the locked state.  An operation whose
monitor wait-loop condition holds — and which would therefore block, with no
concurrent thread to change the state before it re-checks — is modelled as
returning `none`.  The condition-variable notifications each operation
performs are recorded as an explicit event list, so that `notify_one` versus
`notify_all` on each condition variable is visible in the model.
-/

namespace Fifo

/-- A condition-variable notification performed by a queue operation.
The queue owns two condvars, `not_empty` and `not_full` (src/queue.rs
lines 50-51); operations call either `notify_one` or `notify_all` on them. -/
inductive CondvarEvent where
  | notifyOneNotEmpty
  | notifyOneNotFull
  | notifyAllNotEmpty
  | notifyAllNotFull
deriving DecidableEq, Repr

/-- Inner shared state of the queue, protected by the mutex
(src/queue.rs lines 59-63): the buffer (a `VecDeque<T>`, here a list with
front at the head) and the shutdown flag. -/
structure Inner (T : Type) where
  buffer : List T
  shutdown : Bool
deriving DecidableEq, Repr

/-- The queue (src/queue.rs lines 47-53): the mutex-protected inner state
and the immutable capacity.  The two condvars carry no state; the
notifications sent on them are returned by each operation as events. -/
structure Queue (T : Type) where
  inner : Inner T
  capacity : Nat
deriving DecidableEq, Repr

namespace Queue

/-- `Queue::new` (src/queue.rs lines 89-99): any `usize` capacity is
accepted; the buffer starts empty and the shutdown flag false. -/
def new (T : Type) (capacity : Nat) : Queue T :=
  { inner := { buffer := [], shutdown := false }, capacity := capacity }

/-- `Queue::enqueue` (src/queue.rs lines 127-139).  The wait loop runs
while the buffer is full and the queue is not shut down; sequentially this
means the call blocks (`none`).  Once past the loop: if shut down, return
without inserting (the item is dropped); otherwise push the item at the
back and `notify_one` on `not_empty`. -/
def enqueue (q : Queue T) (item : T) : Option (Queue T × List CondvarEvent) :=
  if q.inner.buffer.length = q.capacity ∧ q.inner.shutdown = false then
    none
  else if q.inner.shutdown then
    some (q, [])
  else
    some ({ q with inner := { q.inner with buffer := q.inner.buffer ++ [item] } },
          [CondvarEvent.notifyOneNotEmpty])

/-- `Queue::dequeue` (src/queue.rs lines 165-176).  The wait loop runs
while the buffer is empty and the queue is not shut down; sequentially this
means the call blocks (`none`).  Once past the loop: `pop_front`, and if an
item came out, `notify_one` on `not_full`. -/
def dequeue (q : Queue T) : Option (Queue T × Option T × List CondvarEvent) :=
  if q.inner.buffer.isEmpty ∧ q.inner.shutdown = false then
    none
  else
    match q.inner.buffer with
    | [] => some (q, none, [])
    | x :: rest =>
        some ({ q with inner := { q.inner with buffer := rest } }, some x,
              [CondvarEvent.notifyOneNotFull])

/-- `Queue::shutdown` (src/queue.rs lines 198-203): set the shutdown flag
and `notify_all` on both condition variables.  Never blocks. -/
def shutdown (q : Queue T) : Queue T × List CondvarEvent :=
  ({ q with inner := { q.inner with shutdown := true } },
   [CondvarEvent.notifyAllNotEmpty, CondvarEvent.notifyAllNotFull])

/-- `Queue::is_empty` (src/queue.rs lines 223-226). -/
def is_empty (q : Queue T) : Bool :=
  q.inner.buffer.isEmpty

/-- `Queue::is_shutdown` (src/queue.rs lines 246-249). -/
def is_shutdown (q : Queue T) : Bool :=
  q.inner.shutdown

end Queue

/-- One call against the queue, for describing sequential runs. -/
inductive Op (T : Type) where
  | enq : T → Op T
  | deq : Op T
  | shut : Op T
  | isEmptyQuery : Op T
  | isShutdownQuery : Op T
deriving DecidableEq, Repr

/-- Execute one call.  Returns `none` when the call blocks forever in a
sequential run.  Otherwise returns the new state, the value answered by a
`dequeue` call (`some (some x)` an item, `some none` the "no item" report),
and the value actually inserted by an `enqueue` call (`some v` only when the
item really entered the buffer; a post-shutdown enqueue inserts nothing). -/
def step (q : Queue T) : Op T → Option (Queue T × Option (Option T) × Option T)
  | Op.enq v =>
      match Queue.enqueue q v with
      | none => none
      | some (q1, _) =>
          some (q1, none, if q.inner.shutdown then none else some v)
  | Op.deq =>
      match Queue.dequeue q with
      | none => none
      | some (q1, item, _) => some (q1, some item, none)
  | Op.shut => some ((Queue.shutdown q).1, none, none)
  | Op.isEmptyQuery => some (q, none, none)
  | Op.isShutdownQuery => some (q, none, none)

/-- Run a sequence of calls.  Returns the final state, the list of answers
given by the `dequeue` calls in order, and the list of values successfully
inserted by the `enqueue` calls in order; `none` if some call blocks. -/
def run (q : Queue T) : List (Op T) → Option (Queue T × List (Option T) × List T)
  | [] => some (q, [], [])
  | op :: rest =>
      match step q op with
      | none => none
      | some (q1, out?, ins?) =>
          match run q1 rest with
          | none => none
          | some (q2, outs, ins) => some (q2, out?.toList ++ outs, ins?.toList ++ ins)

/-! ## C-ABI wrapper (src/lib.rs)

The handle `queue_t = *mut Queue` is modelled as `Option CQueue` with
`none` the null handle.  Payloads are raw `*mut c_void` values, modelled as
integers with `0` for the null pointer.  The non-null bodies of `enqueue`,
`dequeue` and `queue_shutdown` are `todo!()` in the source, i.e. they
panic; a panic is modelled as `Except.error ()`. -/

/-- The C-ABI queue state (src/lib.rs lines 9-20): payload-pointer buffer,
capacity, shutdown flag (kept under its own mutex in the source). -/
structure CQueue where
  queue : List Int
  capacity : Nat
  shutdown : Bool
deriving DecidableEq, Repr

namespace CABI

/-- `queue_init` (src/lib.rs lines 26-42): a non-positive `c_int` capacity
yields the null handle; otherwise a fresh queue. -/
def queue_init (capacity : Int) : Option CQueue :=
  if capacity ≤ 0 then
    none
  else
    some { queue := [], capacity := capacity.toNat, shutdown := false }

/-- C-ABI `enqueue` (src/lib.rs lines 59-66): null handle is a no-op;
the non-null body is `todo!()` (panic). -/
def enqueue (q : Option CQueue) (data : Int) : Except Unit (Option CQueue) :=
  match q, data with
  | none, _ => Except.ok none
  | some _, _ => Except.error ()

/-- C-ABI `dequeue` (src/lib.rs lines 68-75): null handle returns the null
pointer; the non-null body is `todo!()` (panic). -/
def dequeue (q : Option CQueue) : Except Unit (Option CQueue × Int) :=
  match q with
  | none => Except.ok (none, 0)
  | some _ => Except.error ()

/-- C-ABI `queue_shutdown` (src/lib.rs lines 77-84): null handle is a
no-op; the non-null body is `todo!()` (panic). -/
def queue_shutdown (q : Option CQueue) : Except Unit (Option CQueue) :=
  match q with
  | none => Except.ok none
  | some _ => Except.error ()

/-- C-ABI `is_empty` (src/lib.rs lines 86-96): null handle reports true. -/
def is_empty (q : Option CQueue) : Bool :=
  match q with
  | none => true
  | some q => q.queue.isEmpty

/-- C-ABI `is_shutdown` (src/lib.rs lines 98-108): null handle reports
true. -/
def is_shutdown (q : Option CQueue) : Bool :=
  match q with
  | none => true
  | some q => q.shutdown

end CABI

/-! ## Demo driver (src/main.rs) -/

/-- The clap-parsed command-line arguments (src/main.rs lines 15-35). -/
structure Args where
  consumers : Nat
  producers : Nat
  items : Nat
  size : Nat
  delay : Bool
deriving DecidableEq, Repr

/-- The run parameters the driver actually uses. -/
structure RunParams where
  nump : Nat
  numc : Nat
  per_thread : Nat
  size : Nat
  delay : Bool
deriving DecidableEq, Repr

/-- Parameter processing of `main` (src/main.rs lines 37-55): producer and
consumer counts are capped with `.min(8)`; `per_thread = items / nump` is a
Rust `usize` division, which panics when `nump = 0` (modelled as `none`);
the queue size and delay flag are used as parsed. -/
def mainParams (args : Args) : Option RunParams :=
  let nump := min args.producers 8
  let numc := min args.consumers 8
  if nump = 0 then
    none
  else
    some { nump := nump, numc := numc, per_thread := args.items / nump,
           size := args.size, delay := args.delay }

/-! ## Case-shape lemmas for the three conditional operations -/

theorem enqueue_blocked {T} {q : Queue T} (v : T)
    (h1 : q.inner.buffer.length = q.capacity) (h2 : q.inner.shutdown = false) :
    Queue.enqueue q v = none := by
  simp [Queue.enqueue, h1, h2]

theorem enqueue_shut {T} {q : Queue T} (v : T) (h : q.inner.shutdown = true) :
    Queue.enqueue q v = some (q, []) := by
  simp [Queue.enqueue, h]

theorem enqueue_open {T} {q : Queue T} (v : T)
    (h1 : q.inner.buffer.length ≠ q.capacity) (h2 : q.inner.shutdown = false) :
    Queue.enqueue q v =
      some ({ q with inner := { q.inner with buffer := q.inner.buffer ++ [v] } },
            [CondvarEvent.notifyOneNotEmpty]) := by
  simp [Queue.enqueue, h1, h2]

theorem dequeue_blocked {T} {q : Queue T}
    (h1 : q.inner.buffer = []) (h2 : q.inner.shutdown = false) :
    Queue.dequeue q = none := by
  simp [Queue.dequeue, h1, h2]

theorem dequeue_empty_shut {T} {q : Queue T}
    (h1 : q.inner.buffer = []) (h2 : q.inner.shutdown = true) :
    Queue.dequeue q = some (q, none, []) := by
  simp [Queue.dequeue, h1, h2]

theorem dequeue_cons {T} {q : Queue T} {x : T} {rest : List T}
    (h : q.inner.buffer = x :: rest) :
    Queue.dequeue q =
      some ({ q with inner := { q.inner with buffer := rest } }, some x,
            [CondvarEvent.notifyOneNotFull]) := by
  simp [Queue.dequeue, h]

/-! ## Invariants of a single step and of whole runs -/

theorem step_spec {T} {q q1 : Queue T} {op : Op T}
    {out? : Option (Option T)} {ins? : Option T}
    (h : step q op = some (q1, out?, ins?)) :
    (out?.toList.filterMap id) ++ q1.inner.buffer = q.inner.buffer ++ ins?.toList ∧
    q1.capacity = q.capacity ∧
    (q.inner.buffer.length ≤ q.capacity → q1.inner.buffer.length ≤ q1.capacity) ∧
    (q.inner.shutdown = true → q1.inner.shutdown = true) := by
  cases op with
  | enq v =>
    cases hsd : q.inner.shutdown with
    | true =>
      simp only [step, enqueue_shut v hsd, hsd, if_true] at h
      obtain ⟨rfl, rfl, rfl⟩ := by simpa using h
      simp [hsd]
    | false =>
      by_cases hlen : q.inner.buffer.length = q.capacity
      · simp only [step, enqueue_blocked v hlen hsd] at h
        exact Option.noConfusion h
      · simp only [step, enqueue_open v hlen hsd, hsd, if_false, Bool.false_eq_true] at h
        obtain ⟨rfl, rfl, rfl⟩ := by simpa using h
        refine ⟨by simp, rfl, ?_, by simp [hsd]⟩
        intro hb
        simp only [List.length_append, List.length_cons, List.length_nil]
        omega
  | deq =>
    cases hb : q.inner.buffer with
    | nil =>
      cases hsd : q.inner.shutdown with
      | false =>
        simp only [step, dequeue_blocked hb hsd] at h
        exact Option.noConfusion h
      | true =>
        simp only [step, dequeue_empty_shut hb hsd] at h
        obtain ⟨rfl, rfl, rfl⟩ := by simpa using h
        simp [hb, hsd]
    | cons x rest =>
      simp only [step, dequeue_cons hb] at h
      obtain ⟨rfl, rfl, rfl⟩ := by simpa using h
      refine ⟨by simp [hb], rfl, ?_, by simp⟩
      intro hlen
      simp only [hb, List.length_cons] at hlen ⊢
      omega
  | shut =>
    simp only [step, Queue.shutdown] at h
    obtain ⟨rfl, rfl, rfl⟩ := by simpa using h
    simp
  | isEmptyQuery =>
    simp only [step] at h
    obtain ⟨rfl, rfl, rfl⟩ := by simpa using h
    simp
  | isShutdownQuery =>
    simp only [step] at h
    obtain ⟨rfl, rfl, rfl⟩ := by simpa using h
    simp

theorem run_spec {T} : ∀ (ops : List (Op T)) (q q' : Queue T)
    (outs : List (Option T)) (ins : List T),
    run q ops = some (q', outs, ins) →
    outs.filterMap id ++ q'.inner.buffer = q.inner.buffer ++ ins ∧
    q'.capacity = q.capacity ∧
    (q.inner.buffer.length ≤ q.capacity → q'.inner.buffer.length ≤ q'.capacity) ∧
    (q.inner.shutdown = true → q'.inner.shutdown = true) := by
  intro ops
  induction ops with
  | nil =>
    intro q q' outs ins h
    obtain ⟨rfl, rfl, rfl⟩ := by simpa [run] using h
    simp
  | cons op rest ih =>
    intro q q' outs ins h
    simp only [run] at h
    cases hstep : step q op with
    | none =>
      simp only [hstep] at h
      exact Option.noConfusion h
    | some val =>
      obtain ⟨q1, out?, ins?⟩ := val
      simp only [hstep] at h
      cases hrun : run q1 rest with
      | none =>
        simp only [hrun] at h
        exact Option.noConfusion h
      | some val2 =>
        obtain ⟨q2, outs2, ins2⟩ := val2
        simp only [hrun] at h
        obtain ⟨rfl, rfl, rfl⟩ := by simpa using h
        obtain ⟨sfifo, scap, sbound, ssd⟩ := step_spec hstep
        obtain ⟨rfifo, rcap, rbound, rsd⟩ := ih q1 q2 outs2 ins2 hrun
        refine ⟨?_, by rw [rcap, scap], fun hb => rbound (scap ▸ sbound hb), fun hb => rsd (ssd hb)⟩
        calc (out?.toList ++ outs2).filterMap id ++ q2.inner.buffer
            = out?.toList.filterMap id ++ (outs2.filterMap id ++ q2.inner.buffer) := by
              simp [List.filterMap_append, List.append_assoc]
          _ = out?.toList.filterMap id ++ (q1.inner.buffer ++ ins2) := by rw [rfifo]
          _ = (out?.toList.filterMap id ++ q1.inner.buffer) ++ ins2 := by
              simp [List.append_assoc]
          _ = (q.inner.buffer ++ ins?.toList) ++ ins2 := by rw [sfifo]
          _ = q.inner.buffer ++ (ins?.toList ++ ins2) := by simp [List.append_assoc]

example : run (Queue.new Nat 2) [Op.enq 5, Op.enq 6, Op.deq, Op.deq] =
    some (⟨⟨[], false⟩, 2⟩, [some 5, some 6], [5, 6]) := by decide

example : run (Queue.new Nat 2) [Op.enq 5, Op.enq 6, Op.enq 7] = none := by decide

example : run (Queue.new Nat 2) [Op.enq 10, Op.shut, Op.enq 20, Op.deq, Op.deq] =
    some (⟨⟨[], true⟩, 2⟩, [some 10, none], [10]) := by decide

/-! ## Claims -/

/-- Claim C1: strict FIFO order.  In every sequential run from a fresh queue
in which no call blocks (in particular no enqueue is attempted on a full
queue), the values returned by `dequeue` followed by the remaining buffer
contents are exactly the values passed to successful enqueues, in order; so
whenever the run drains the queue, the dequeued sequence equals the
successfully-enqueued sequence exactly. -/
theorem fifo_order (c : Nat) (ops : List (Op Nat)) (q' : Queue Nat)
    (outs : List (Option Nat)) (ins : List Nat)
    (h : run (Queue.new Nat c) ops = some (q', outs, ins)) :
    outs.filterMap id ++ q'.inner.buffer = ins ∧
    (q'.inner.buffer = [] → outs.filterMap id = ins) := by
  have hf := (run_spec ops _ q' outs ins h).1
  simp only [Queue.new, List.nil_append] at hf
  exact ⟨hf, fun hd => by simpa [hd] using hf⟩

theorem fifo_order_witness :
    List.filterMap id [some 5, some 6] ++ (⟨⟨[], false⟩, 2⟩ : Queue Nat).inner.buffer
        = [5, 6] ∧
    ((⟨⟨[], false⟩, 2⟩ : Queue Nat).inner.buffer = [] →
        List.filterMap id [some 5, some 6] = [5, 6]) :=
  fifo_order 2 [Op.enq 5, Op.enq 6, Op.deq, Op.deq] ⟨⟨[], false⟩, 2⟩
    [some 5, some 6] [5, 6] (by decide)

/-- Claim C2: shutdown drains then stops.  With capacity at least 3, after
enqueuing 1, 2, 3, dequeuing twice (getting 1 then 2) and shutting down, the
next dequeue returns 3, the following dequeue reports no item, the final
state answers `is_shutdown` and `is_empty` with true, and any further
dequeue on an empty shut-down queue keeps reporting no item without
changing the state. -/
theorem shutdown_drains_then_stops (c : Nat) (hc : 3 ≤ c) :
    run (Queue.new Nat c)
        [Op.enq 1, Op.enq 2, Op.enq 3, Op.deq, Op.deq, Op.shut, Op.deq, Op.deq]
      = some (⟨⟨[], true⟩, c⟩, [some 1, some 2, some 3, none], [1, 2, 3]) ∧
    Queue.is_shutdown (⟨⟨[], true⟩, c⟩ : Queue Nat) = true ∧
    Queue.is_empty (⟨⟨[], true⟩, c⟩ : Queue Nat) = true ∧
    (∀ q : Queue Nat, q.inner.buffer = [] → q.inner.shutdown = true →
        Queue.dequeue q = some (q, none, [])) := by
  have h0 : ¬ (0 = c) := by omega
  have h1 : ¬ (1 = c) := by omega
  have h2 : ¬ (2 = c) := by omega
  refine ⟨?_, rfl, rfl, fun q hb hsd => dequeue_empty_shut hb hsd⟩
  simp [run, step, Queue.new, Queue.enqueue, Queue.dequeue, Queue.shutdown, h0, h1, h2]

theorem shutdown_drains_then_stops_witness :
    run (Queue.new Nat 3)
        [Op.enq 1, Op.enq 2, Op.enq 3, Op.deq, Op.deq, Op.shut, Op.deq, Op.deq]
      = some (⟨⟨[], true⟩, 3⟩, [some 1, some 2, some 3, none], [1, 2, 3]) ∧
    Queue.is_shutdown (⟨⟨[], true⟩, 3⟩ : Queue Nat) = true ∧
    Queue.is_empty (⟨⟨[], true⟩, 3⟩ : Queue Nat) = true ∧
    (∀ q : Queue Nat, q.inner.buffer = [] → q.inner.shutdown = true →
        Queue.dequeue q = some (q, none, [])) :=
  shutdown_drains_then_stops 3 (by decide)

/-- Claim C3: post-shutdown enqueue is a silent no-op.  On any state with
the shutdown flag set, `enqueue` returns without inserting and leaves the
whole state unchanged; concretely, after enqueue 10, shutdown, enqueue 20,
dequeuing yields 10 and then the no-item report, and 20 was never
inserted. -/
theorem enqueue_after_shutdown_noop :
    (∀ (q : Queue Nat) (v : Nat), q.inner.shutdown = true →
        Queue.enqueue q v = some (q, [])) ∧
    run (Queue.new Nat 2) [Op.enq 10, Op.shut, Op.enq 20, Op.deq, Op.deq]
      = some (⟨⟨[], true⟩, 2⟩, [some 10, none], [10]) :=
  ⟨fun _ v h => enqueue_shut v h, by decide⟩

theorem enqueue_after_shutdown_noop_witness :
    Queue.enqueue (⟨⟨[10], true⟩, 2⟩ : Queue Nat) 20 = some (⟨⟨[10], true⟩, 2⟩, []) :=
  enqueue_after_shutdown_noop.1 ⟨⟨[10], true⟩, 2⟩ 20 rfl

/-- Claim C4: capacity bound.  Every sequential run from a fresh queue of
capacity `c` ends (and hence passes through every quiescent point) with at
most `c` buffered items, and `enqueue` on a full buffer never inserts: it
either blocks or (when shut down) returns the state unchanged. -/
theorem capacity_bound :
    (∀ (c : Nat) (ops : List (Op Nat)) (q' : Queue Nat)
        (outs : List (Option Nat)) (ins : List Nat),
        run (Queue.new Nat c) ops = some (q', outs, ins) →
        q'.inner.buffer.length ≤ c) ∧
    (∀ (q : Queue Nat) (v : Nat), q.inner.buffer.length = q.capacity →
        Queue.enqueue q v = none ∨ Queue.enqueue q v = some (q, [])) := by
  constructor
  · intro c ops q' outs ins h
    have hs := run_spec ops _ q' outs ins h
    have hb := hs.2.2.1 (by simp [Queue.new])
    rw [hs.2.1] at hb
    simpa [Queue.new] using hb
  · intro q v hfull
    cases hsd : q.inner.shutdown with
    | false => exact Or.inl (enqueue_blocked v hfull hsd)
    | true => exact Or.inr (enqueue_shut v hsd)

theorem capacity_bound_witness :
    (⟨⟨[7], false⟩, 1⟩ : Queue Nat).inner.buffer.length ≤ 1 ∧
    (Queue.enqueue (⟨⟨[7], false⟩, 1⟩ : Queue Nat) 8 = none ∨
     Queue.enqueue (⟨⟨[7], false⟩, 1⟩ : Queue Nat) 8 = some (⟨⟨[7], false⟩, 1⟩, [])) :=
  ⟨capacity_bound.1 1 [Op.enq 7] ⟨⟨[7], false⟩, 1⟩ [] [7] (by decide),
   capacity_bound.2 ⟨⟨[7], false⟩, 1⟩ 8 rfl⟩

/-- Claim C5, counterexample: the in-process constructor does not reject
capacity 0.  `Queue::new(0)` yields an ordinary queue — empty, not shut
down, capacity 0 — whose observers and mutators behave like a live queue
(`is_shutdown` flips from false to true under `shutdown`), not a
construction failure or invalid handle with no-op defaults. -/
theorem new_zero_constructs_usable_queue :
    Queue.new Nat 0 = ⟨⟨[], false⟩, 0⟩ ∧
    Queue.is_shutdown (Queue.new Nat 0) = false ∧
    Queue.is_empty (Queue.new Nat 0) = true ∧
    Queue.is_shutdown ((Queue.shutdown (Queue.new Nat 0)).1) = true ∧
    run (Queue.new Nat 0) [Op.shut, Op.deq] = some (⟨⟨[], true⟩, 0⟩, [none], []) := by
  decide

/-- Claim C5, amended: only the C-ABI `queue_init` rejects a non-positive
capacity, returning the null handle; the in-process `Queue::new` performs
no validation, so `new(0)` returns an ordinary queue with capacity 0 (on
which any enqueue blocks while the queue is not shut down). -/
theorem invalid_construction_cabi_only :
    (∀ c : Int, c ≤ 0 → CABI.queue_init c = none) ∧
    Queue.new Nat 0 = ⟨⟨[], false⟩, 0⟩ ∧
    (∀ v : Nat, Queue.enqueue (Queue.new Nat 0) v = none) :=
  ⟨fun _ hc => by simp [CABI.queue_init, hc], rfl, fun v => enqueue_blocked v rfl rfl⟩

theorem invalid_construction_cabi_only_witness :
    CABI.queue_init (-3) = none ∧ Queue.enqueue (Queue.new Nat 0) 5 = none :=
  ⟨invalid_construction_cabi_only.1 (-3) (by decide),
   invalid_construction_cabi_only.2.2 5⟩

/-- Claim C6: shutdown is monotonic and idempotent.  The flag starts false,
`shutdown` sets it true, repeating `shutdown` changes nothing (same state
and same notifications), `is_shutdown` then answers true, and no sequence
of operations ever resets the flag to false. -/
theorem shutdown_monotonic_idempotent :
    (∀ c : Nat, (Queue.new Nat c).inner.shutdown = false) ∧
    (∀ q : Queue Nat, ((Queue.shutdown q).1).inner.shutdown = true) ∧
    (∀ q : Queue Nat, Queue.shutdown ((Queue.shutdown q).1) = Queue.shutdown q) ∧
    (∀ q : Queue Nat, Queue.is_shutdown ((Queue.shutdown q).1) = true) ∧
    (∀ (q q' : Queue Nat) (ops : List (Op Nat))
        (outs : List (Option Nat)) (ins : List Nat),
        q.inner.shutdown = true → run q ops = some (q', outs, ins) →
        q'.inner.shutdown = true) :=
  ⟨fun _ => rfl, fun _ => rfl, fun _ => rfl, fun _ => rfl,
   fun q q' ops outs ins hsd h => (run_spec ops q q' outs ins h).2.2.2 hsd⟩

theorem shutdown_monotonic_idempotent_witness :
    (⟨⟨[], true⟩, 2⟩ : Queue Nat).inner.shutdown = true :=
  shutdown_monotonic_idempotent.2.2.2.2 ⟨⟨[5], true⟩, 2⟩ ⟨⟨[], true⟩, 2⟩
    [Op.deq, Op.deq] [some 5, none] [] rfl (by decide)

/-- Claim C7: `shutdown` notifies with `notify_all` (a broadcast, not a
single notification) on both condition variables, and the state it leaves
lets every waiter make progress: a producer re-checking after shutdown
returns without inserting, and a consumer re-checking after shutdown either
receives the front item or, on an empty buffer, reports no item — neither
ever blocks again, however many threads were waiting. -/
theorem shutdown_broadcasts_both_condvars :
    (∀ q : Queue Nat, (Queue.shutdown q).2 =
        [CondvarEvent.notifyAllNotEmpty, CondvarEvent.notifyAllNotFull]) ∧
    (∀ (q : Queue Nat) (v : Nat), ((Queue.shutdown q).1).inner.shutdown = true ∧
        Queue.enqueue ((Queue.shutdown q).1) v = some ((Queue.shutdown q).1, [])) ∧
    (∀ q : Queue Nat, q.inner.shutdown = true →
        (q.inner.buffer = [] → Queue.dequeue q = some (q, none, [])) ∧
        (∀ (x : Nat) (rest : List Nat), q.inner.buffer = x :: rest →
            Queue.dequeue q =
              some ({ q with inner := { q.inner with buffer := rest } }, some x,
                    [CondvarEvent.notifyOneNotFull]))) :=
  ⟨fun _ => rfl, fun _ v => ⟨rfl, enqueue_shut v rfl⟩,
   fun _ hsd => ⟨fun hb => dequeue_empty_shut hb hsd,
                 fun _ _ hb => dequeue_cons hb⟩⟩

theorem shutdown_broadcasts_both_condvars_witness :
    Queue.dequeue (⟨⟨[], true⟩, 1⟩ : Queue Nat) = some (⟨⟨[], true⟩, 1⟩, none, []) ∧
    Queue.dequeue (⟨⟨[4], true⟩, 1⟩ : Queue Nat)
      = some (⟨⟨[], true⟩, 1⟩, some 4, [CondvarEvent.notifyOneNotFull]) :=
  ⟨(shutdown_broadcasts_both_condvars.2.2 ⟨⟨[], true⟩, 1⟩ rfl).1 rfl,
   (shutdown_broadcasts_both_condvars.2.2 ⟨⟨[4], true⟩, 1⟩ rfl).2 4 [] rfl⟩

/-- Claim C8: C-ABI null-handle safety.  `queue_init` with a non-positive
capacity returns the null handle; on the null handle, `enqueue` and
`queue_shutdown` are no-ops, `dequeue` returns the null pointer, and
`is_empty` and `is_shutdown` report true. -/
theorem null_handle_safety :
    (∀ c : Int, c ≤ 0 → CABI.queue_init c = none) ∧
    (∀ d : Int, CABI.enqueue none d = Except.ok none) ∧
    CABI.dequeue none = Except.ok (none, 0) ∧
    CABI.queue_shutdown none = Except.ok none ∧
    CABI.is_empty none = true ∧
    CABI.is_shutdown none = true :=
  ⟨fun _ hc => by simp [CABI.queue_init, hc], fun _ => rfl, rfl, rfl, rfl, rfl⟩

theorem null_handle_safety_witness :
    CABI.queue_init (-1) = none ∧ CABI.enqueue none 42 = Except.ok none :=
  ⟨null_handle_safety.1 (-1) (by decide), null_handle_safety.2.1 42⟩

/-- Claim C9, counterexample: the driver does not clamp every run
parameter.  The queue size passes through unclamped (size 123456789 is used
as given), and a producer count of 0 is not clamped to a sane bound: the
per-thread item computation divides by zero and the process panics. -/
theorem driver_params_not_all_clamped :
    (mainParams ⟨1, 1, 10, 123456789, false⟩).map RunParams.size = some 123456789 ∧
    mainParams ⟨1, 0, 10, 5, false⟩ = none := by
  decide

/-- Claim C9, amended: the driver parses all five run parameters but clamps
only the thread counts, capping producers and consumers at 8 with `min`;
the per-thread item count is the parsed item total divided by the capped
producer count (a division that panics when the producer count is 0), and
the queue size and delay flag are used exactly as parsed. -/
theorem driver_clamps_thread_counts :
    (∀ (args : Args) (p : RunParams), mainParams args = some p →
        p.nump = min args.producers 8 ∧ p.numc = min args.consumers 8 ∧
        p.nump ≤ 8 ∧ p.numc ≤ 8 ∧
        p.per_thread = args.items / p.nump ∧
        p.size = args.size ∧ p.delay = args.delay) ∧
    (∀ args : Args, mainParams args = none ↔ args.producers = 0) := by
  constructor
  · intro args p h
    simp only [mainParams] at h
    split at h
    · exact Option.noConfusion h
    · obtain rfl : _ = p := by simpa using h
      exact ⟨rfl, rfl, Nat.min_le_right _ _, Nat.min_le_right _ _, rfl, rfl, rfl⟩
  · intro args
    by_cases hp : args.producers = 0
    · simp [mainParams, hp]
    · have hm : ¬ (min args.producers 8 = 0) := by omega
      simp [mainParams, hm, hp]

theorem driver_clamps_thread_counts_witness :
    (⟨8, 3, 12, 7, true⟩ : RunParams).nump = min 100 8 ∧
    (⟨8, 3, 12, 7, true⟩ : RunParams).numc = min 3 8 ∧
    (⟨8, 3, 12, 7, true⟩ : RunParams).nump ≤ 8 ∧
    (⟨8, 3, 12, 7, true⟩ : RunParams).numc ≤ 8 ∧
    (⟨8, 3, 12, 7, true⟩ : RunParams).per_thread
        = 100 / (⟨8, 3, 12, 7, true⟩ : RunParams).nump ∧
    (⟨8, 3, 12, 7, true⟩ : RunParams).size = 7 ∧
    (⟨8, 3, 12, 7, true⟩ : RunParams).delay = true :=
  driver_clamps_thread_counts.1 ⟨3, 100, 100, 7, true⟩ ⟨8, 3, 12, 7, true⟩ (by decide)

/-- Claim C10: a capacity-0 queue is created successfully, and in every
state reachable from it the buffer is empty, so the enqueue wait-loop
condition `len(buffer) == capacity` holds whenever the shutdown flag is
false: enqueue blocks in every such state, and only after shutdown does it
return — discarding its item. -/
theorem zero_capacity_enqueue_never_completes :
    Queue.new Nat 0 = ⟨⟨[], false⟩, 0⟩ ∧
    (∀ (ops : List (Op Nat)) (q' : Queue Nat)
        (outs : List (Option Nat)) (ins : List Nat),
        run (Queue.new Nat 0) ops = some (q', outs, ins) →
        q'.inner.buffer = [] ∧
        (q'.inner.shutdown = false → ∀ v : Nat, Queue.enqueue q' v = none) ∧
        (q'.inner.shutdown = true → ∀ v : Nat, Queue.enqueue q' v = some (q', []))) := by
  refine ⟨rfl, fun ops q' outs ins h => ?_⟩
  have hs := run_spec ops _ q' outs ins h
  have hcap : q'.capacity = 0 := by simpa [Queue.new] using hs.2.1
  have hlen : q'.inner.buffer.length ≤ q'.capacity := hs.2.2.1 (by simp [Queue.new])
  have hb : q'.inner.buffer = [] := by
    rw [hcap] at hlen
    exact List.length_eq_zero.mp (Nat.le_zero.mp hlen)
  exact ⟨hb, fun hsd v => enqueue_blocked v (by rw [hb, hcap]; rfl) hsd,
         fun hsd v => enqueue_shut v hsd⟩

theorem zero_capacity_enqueue_never_completes_witness :
    (⟨⟨[], true⟩, 0⟩ : Queue Nat).inner.buffer = [] ∧
    ((⟨⟨[], true⟩, 0⟩ : Queue Nat).inner.shutdown = false →
        ∀ v : Nat, Queue.enqueue (⟨⟨[], true⟩, 0⟩ : Queue Nat) v = none) ∧
    ((⟨⟨[], true⟩, 0⟩ : Queue Nat).inner.shutdown = true →
        ∀ v : Nat, Queue.enqueue (⟨⟨[], true⟩, 0⟩ : Queue Nat) v
          = some (⟨⟨[], true⟩, 0⟩, [])) :=
  zero_capacity_enqueue_never_completes.2 [Op.shut] ⟨⟨[], true⟩, 0⟩ [] [] (by decide)

end Fifo
